import Mathlib

/-!
Shallow embedding of the Cap desktop recorder core
(`src/apps/desktop-solid/src-tauri/src/lib.rs`).

Conventions of the embedding:
* Paths are lists of components; `PathBuf::join` is list append.
* The filesystem is a pair of a directory list and an association list
  from paths to file data; a write shadows earlier entries.
* The contents of `recording-meta.json` are represented by their
  `serde_json` parse outcome (`MetaContent`): either malformed text or a
  well-formed `RecordingMeta`; other file kinds never parse.
* Tauri/AppKit window management (occluder window, camera window, panels),
  event emission and `dbg!` logging are UI glue outside the core state and
  are dropped from the embedding, as are the `AppHandle` plumbing and the
  ffmpeg sidecar installation.
* A Rust `.unwrap()` on a fallible value is modelled by the `panicked`
  outcome.
* The modules `recording`, `project` and `video_renderer` are not part of
  the sources; definitions taken from them are modelled from the spec and
  say so in their doc comment.
-/

/-- A filesystem path, as its list of components (`PathBuf::join` is `++`). -/
abbrev FsPath := List String

/-- From `display.rs` (via the spec data model): what the display pipeline
captures. -/
inductive CaptureTarget where
  | screen : CaptureTarget
  | window (id : Nat) : CaptureTarget
deriving DecidableEq

/-- `RecordingOptions` from `lib.rs`: capture target plus optional camera
label. -/
structure RecordingOptions where
  capture_target : CaptureTarget
  camera_label : Option String
deriving DecidableEq

/-- Width/height pair as stored in `recording-meta.json`. -/
structure Dimensions where
  width : Nat
  height : Nat
deriving DecidableEq

/-- `RecordingMeta` from `recording::recording_meta`: display dimensions and
optional camera dimensions (schema given in the spec, consumed in
`get_rendered_video`). -/
structure RecordingMeta where
  display : Dimensions
  camera : Option Dimensions
deriving DecidableEq

/-- The textual content of a `recording-meta.json` file, represented by its
`serde_json::from_str::<RecordingMeta>` parse outcome. -/
inductive MetaContent where
  | malformed : MetaContent
  | wellFormed (m : RecordingMeta) : MetaContent
deriving DecidableEq

/-- Data stored in a file of the embedded filesystem. `video w h` is a
finalized container whose frames have dimensions `w × h`; `thumbnail src`
is a still image extracted from the first frame of the file at `src`;
`metaText` is JSON text; `empty` is a zero-byte file (never produced by the
embedded operations, present so that non-emptiness is a real property). -/
inductive FileData where
  | empty : FileData
  | video (width height : Nat) : FileData
  | thumbnail (source : FsPath) : FileData
  | metaText (t : MetaContent) : FileData
deriving DecidableEq

/-- A file is non-empty unless it is the zero-byte file. -/
def FileData.nonEmpty : FileData → Bool
  | .empty => false
  | _ => true

/-- The embedded filesystem: existing directories and an association list of
files; the head entry for a path shadows older ones. -/
structure FS where
  dirs : List FsPath
  files : List (FsPath × FileData)
deriving DecidableEq

/-- Read a file: first association-list entry for the path. -/
def FS.read (fs : FS) (p : FsPath) : Option FileData :=
  (fs.files.find? (fun e => decide (e.1 = p))).map (fun e => e.2)

/-- `Path::exists` for a file. -/
def FS.fileExists (fs : FS) (p : FsPath) : Bool :=
  (fs.read p).isSome

/-- `Path::exists` for a directory. -/
def FS.dirExists (fs : FS) (p : FsPath) : Bool :=
  fs.dirs.any (fun q => decide (q = p))

/-- Write (create or overwrite) a file. -/
def FS.write (fs : FS) (p : FsPath) (d : FileData) : FS :=
  { fs with files := (p, d) :: fs.files }

/-- `std::fs::create_dir_all`. -/
def FS.mkdir (fs : FS) (p : FsPath) : FS :=
  { fs with dirs := p :: fs.dirs }

/-- `serde_json::from_str::<RecordingMeta>` applied to a file's bytes:
succeeds exactly on well-formed meta text. -/
def parse_recording_meta : FileData → Option RecordingMeta
  | .metaText (.wellFormed m) => some m
  | _ => none

/-- Outcome of a Tauri command: `Ok`, `Err`, or a Rust panic (an `.unwrap()`
failure). -/
inductive Outcome (α : Type) where
  | ok (a : α) : Outcome α
  | err (e : String) : Outcome α
  | panicked : Outcome α
deriving DecidableEq

/-- Modelled from the spec (module `project` is not in the sources):
`ProjectConfiguration` — caller-supplied layout/style parameters
`{webcam_size, webcam_position, style, output_size, background}`.
Fractional style values are represented as integers; only `output_size`
is consumed by the embedded render path. -/
structure ProjectStyle where
  corner_radius : Nat
  shadow_color : Nat
  shadow_blur : Nat
  shadow_offset : Int × Int
deriving DecidableEq

/-- Modelled from the spec (module `project` is not in the sources): the
top-level project configuration supplied per render request. -/
structure ProjectConfiguration where
  webcam_size : Nat × Nat
  webcam_position : Int × Int
  style : ProjectStyle
  output_size : Nat × Nat
  background : Nat
deriving DecidableEq

/-- `RenderOptions` as constructed in `get_rendered_video` (its fields are
exactly those the `lib.rs` call site populates). -/
structure RenderOptions where
  output_path : FsPath
  screen_recording_path : FsPath
  webcam_recording_path : FsPath
  webcam_size : Nat × Nat
  output_size : Nat × Nat
deriving DecidableEq

/-- Modelled from the spec (module `video_renderer` is not in the sources):
`render_video` decodes the screen recording, composites onto a canvas of
the interface's `output_size`, and encodes to a temporary file renamed to
`output_path` on success only; a missing or corrupt screen source yields
`RenderFailure` with no filesystem change. -/
def render_video (options : RenderOptions) (_project : ProjectConfiguration)
    (fs : FS) : Except String FS :=
  match fs.read options.screen_recording_path with
  | some (.video _ _) =>
      .ok (fs.write options.output_path
        (.video options.output_size.1 options.output_size.2))
  | _ => .error "RenderFailure"

/-- The recordings root `app_data_dir()/recordings`. -/
def recordings_root : FsPath := ["recordings"]

/-- `recordings/{video_id}.cap`, the per-session directory. -/
def video_dir_of (video_id : String) : FsPath :=
  recordings_root ++ [video_id ++ ".cap"]

/-- `get_rendered_video` from `lib.rs`: returns the cached
`output/result.mp4` if present, else loads `recording-meta.json` (two
`.unwrap()`s: missing file or malformed JSON panic), builds
`RenderOptions` and invokes `render_video`. The third component records
the `RenderOptions` the renderer was invoked with (`none`: renderer not
invoked). -/
def get_rendered_video (fs : FS) (video_id : String)
    (project : ProjectConfiguration) : Outcome FsPath × FS × Option RenderOptions :=
  let video_dir := video_dir_of video_id
  if fs.dirExists video_dir then
    let output_path := video_dir ++ ["output", "result.mp4"]
    if fs.fileExists output_path then
      (.ok output_path, fs, none)
    else
      match fs.read (video_dir ++ ["recording-meta.json"]) with
      | none => (.panicked, fs, none)
      | some d =>
        match parse_recording_meta d with
        | none => (.panicked, fs, none)
        | some meta =>
          let render_options : RenderOptions :=
            { output_path := output_path
              screen_recording_path := video_dir ++ ["content", "display.mp4"]
              webcam_recording_path := video_dir ++ ["content", "camera.mp4"]
              webcam_size :=
                (meta.camera.map (fun c => (c.width, c.height))).getD (0, 0)
              output_size := (meta.display.width, meta.display.height) }
          match render_video render_options project fs with
          | .ok fs1 => (.ok output_path, fs1, some render_options)
          | .error e => (.err e, fs, some render_options)
  else
    (.err ("Video directory does not exist: " ++ String.intercalate "/" video_dir),
      fs, none)

/-- `DisplaySource` from the `recording` module, as matched on in
`App::set_current_recording` (`DisplaySource::Window { .. }` vs screen). -/
inductive DisplaySource where
  | screen : DisplaySource
  | window (id : Nat) : DisplaySource
deriving DecidableEq

/-- The display capture pipeline handle: `lib.rs` accesses
`current_recording.display.output_path`; the negotiated dimensions are the
pipelines' dimensions the spec says `RecordingMeta` is written from. -/
structure DisplayPipeline where
  output_path : FsPath
  dims : Dimensions
deriving DecidableEq

/-- The optional camera capture pipeline handle. -/
structure CameraPipeline where
  output_path : FsPath
  dims : Dimensions
deriving DecidableEq

/-- `InProgressRecording` from the `recording` module: the fields `lib.rs`
accesses (`recording_dir`, `display.output_path`, `display_source`), plus
the optional camera pipeline the spec gives it. -/
structure InProgressRecording where
  recording_dir : FsPath
  display : DisplayPipeline
  camera : Option CameraPipeline
  display_source : DisplaySource
deriving DecidableEq

/-- Environment inputs of one `start_recording` call: the generated UUID,
whether the capture pipelines come up (the spec's "fails to become
ready"), and the dimensions the capture sources negotiate. -/
structure Env where
  id : String
  pipeline_fails : Bool
  display_dims : Dimensions
  camera_dims : Dimensions
deriving DecidableEq

/-- Modelled from the spec (module `recording` is not in the sources):
`recording::start` allocates the session directory, always starts the
display pipeline, and starts the camera pipeline iff
`options.camera_label` is set; each ready pipeline's encoder writes its
container file. Its interface at the `lib.rs` call site is infallible (it
returns an `InProgressRecording`, not a `Result`), so a pipeline failure
cannot be reported: the handle is returned regardless, with the container
files simply absent. -/
def recording_start (env : Env) (recording_dir : FsPath)
    (options : RecordingOptions) (fs : FS) : InProgressRecording × FS :=
  let display_path := recording_dir ++ ["content", "display.mp4"]
  let camera_path := recording_dir ++ ["content", "camera.mp4"]
  let camera : Option CameraPipeline :=
    if options.camera_label.isSome then
      some { output_path := camera_path, dims := env.camera_dims }
    else none
  let fs1 := (fs.mkdir recording_dir).mkdir (recording_dir ++ ["content"])
  let fs2 :=
    if env.pipeline_fails then fs1
    else
      let fsd := fs1.write display_path
        (.video env.display_dims.width env.display_dims.height)
      match camera with
      | some c => fsd.write c.output_path (.video c.dims.width c.dims.height)
      | none => fsd
  ({ recording_dir := recording_dir
     display := { output_path := display_path, dims := env.display_dims }
     camera := camera
     display_source :=
       match options.capture_target with
       | .screen => .screen
       | .window i => .window i }, fs2)

/-- Modelled from the spec (module `recording` is not in the sources):
`InProgressRecording::stop` stops the pipelines and writes
`recording-meta.json` from the pipelines' negotiated dimensions (camera
entry present iff a camera pipeline exists). -/
def InProgressRecording.stop (cur : InProgressRecording) (fs : FS) : FS :=
  fs.write (cur.recording_dir ++ ["recording-meta.json"])
    (.metaText (.wellFormed
      { display := cur.display.dims
        camera := cur.camera.map (fun c => c.dims) }))

/-- The ffmpeg invocation in `stop_recording`
(`-ss 0:00:00 -i <display> -frames:v 1 -q:v 2 <screenshots/display.jpg>`):
writes a first-frame still of the source to the destination; if the source
is missing, ffmpeg exits non-zero and writes nothing (the `.unwrap()` is
on spawning, which succeeds). -/
def ffmpeg_first_frame (fs : FS) (source destination : FsPath) : FS :=
  if fs.fileExists source then fs.write destination (.thumbnail source)
  else fs

/-- The core fields of the managed `App` state (the `AppHandle` is UI
glue). -/
structure App where
  start_recording_options : RecordingOptions
  current_recording : Option InProgressRecording
  prev_recordings : List FsPath
deriving DecidableEq

/-- `App::set_current_recording`: stores the new recording in the active
slot (the occluder-window management it also does is UI glue). -/
def App.set_current_recording (a : App) (new_value : InProgressRecording) : App :=
  { a with current_recording := some new_value }

/-- `App::clear_current_recording`: `Option::take` on the active slot. -/
def App.clear_current_recording (a : App) :
    Option InProgressRecording × App :=
  (a.current_recording, { a with current_recording := none })

/-- `App::set_start_recording_options`: wholesale replacement of the stored
options (the camera-window management and event emission are UI glue). -/
def App.set_start_recording_options (a : App) (new_value : RecordingOptions) : App :=
  { a with start_recording_options := new_value }

/-- `get_recording_options` command: returns a clone of the stored options
under a read lock; the state is returned to show it is unchanged. -/
def get_recording_options (a : App) : Except Unit RecordingOptions × App :=
  (.ok a.start_recording_options, a)

/-- `set_recording_options` command: replaces the stored options and
returns `Ok(())`. -/
def set_recording_options (a : App) (options : RecordingOptions) :
    Except Unit Unit × App :=
  (.ok (), a.set_start_recording_options options)

/-- `get_prev_recordings` command: returns a clone of the archive list. -/
def get_prev_recordings (a : App) : Except Unit (List FsPath) × App :=
  (.ok a.prev_recordings, a)

/-- `get_current_recording` command: returns the active slot as JSON. -/
def get_current_recording (a : App) :
    Except Unit (Option InProgressRecording) × App :=
  (.ok a.current_recording, a)

/-- `start_recording` command from `lib.rs`: generates a UUID, builds
`recordings/{id}.cap`, calls `recording::start`, and unconditionally
stores the result via `set_current_recording`, returning `Ok(())` — the
active slot is never checked first. -/
def start_recording (env : Env) (a : App) (fs : FS) :
    Except String Unit × App × FS :=
  let recording_dir := recordings_root ++ [env.id ++ ".cap"]
  let (recording, fs1) := recording_start env recording_dir a.start_recording_options fs
  (.ok (), a.set_current_recording recording, fs1)

/-- `stop_recording` command from `lib.rs`: takes the active recording
(error `"Recording not in progress"` if none), stops it, creates
`screenshots/`, extracts a first-frame thumbnail of the display output to
`screenshots/display.jpg` via ffmpeg, and appends the session directory to
`prev_recordings`. -/
def stop_recording (a : App) (fs : FS) : Except String Unit × App × FS :=
  match a.clear_current_recording with
  | (none, a1) => (.error "Recording not in progress", a1, fs)
  | (some cur, a1) =>
    let fs1 := cur.stop fs
    let fs2 := fs1.mkdir (cur.recording_dir ++ ["screenshots"])
    let fs3 := ffmpeg_first_frame fs2 cur.display.output_path
      (cur.recording_dir ++ ["screenshots", "display.jpg"])
    (.ok (),
      { a1 with prev_recordings := a1.prev_recordings ++ [cur.recording_dir] },
      fs3)

/-! ### Basic filesystem lemmas -/

theorem FS.read_write_self (fs : FS) (p : FsPath) (d : FileData) :
    (fs.write p d).read p = some d := by
  simp [FS.write, FS.read]

theorem FS.read_write_other (fs : FS) (p q : FsPath) (d : FileData)
    (h : q ≠ p) : (fs.write p d).read q = fs.read q := by
  have hpq : p ≠ q := fun e => h e.symm
  simp [FS.write, FS.read, List.find?, hpq]

theorem FS.fileExists_write_self (fs : FS) (p : FsPath) (d : FileData) :
    (fs.write p d).fileExists p = true := by
  simp [FS.fileExists, FS.read_write_self]

theorem FS.fileExists_write_other (fs : FS) (p q : FsPath) (d : FileData)
    (h : q ≠ p) : (fs.write p d).fileExists q = fs.fileExists q := by
  simp [FS.fileExists, FS.read_write_other fs p q d h]

theorem FS.read_mkdir (fs : FS) (p q : FsPath) :
    (fs.mkdir p).read q = fs.read q := rfl

theorem FS.fileExists_mkdir (fs : FS) (p q : FsPath) :
    (fs.mkdir p).fileExists q = fs.fileExists q := rfl

theorem FS.dirExists_write (fs : FS) (p q : FsPath) (d : FileData) :
    (fs.write p d).dirExists q = fs.dirExists q := rfl

/-! ### Concrete fixtures -/

/-- A project configuration with `output_size = (1280, 720)`. -/
def proj0 : ProjectConfiguration :=
  { webcam_size := (160, 120)
    webcam_position := (10, 10)
    style := { corner_radius := 10, shadow_color := 0, shadow_blur := 5,
               shadow_offset := (2, 2) }
    output_size := (1280, 720)
    background := 0 }

/-- An environment for a fresh session with id `"new"`. -/
def env0 : Env :=
  { id := "new", pipeline_fails := false
    display_dims := ⟨1920, 1080⟩, camera_dims := ⟨640, 480⟩ }

/-- The environment `env0` with the capture pipelines failing to come up. -/
def envFail : Env := { env0 with pipeline_fails := true }

/-- Default recording options (screen capture, no camera). -/
def opts0 : RecordingOptions := { capture_target := .screen, camera_label := none }

/-- An already-active in-progress recording in `recordings/old.cap`. -/
def rec0 : InProgressRecording :=
  { recording_dir := ["recordings", "old.cap"]
    display := { output_path := ["recordings", "old.cap", "content", "display.mp4"]
                 dims := ⟨800, 600⟩ }
    camera := none
    display_source := .screen }

/-- An app state with an active recording session. -/
def app0 : App :=
  { start_recording_options := opts0
    current_recording := some rec0
    prev_recordings := [] }

/-- An app state with no active recording session. -/
def appIdle : App :=
  { start_recording_options := opts0
    current_recording := none
    prev_recordings := [] }

/-- The empty filesystem. -/
def fs0 : FS := { dirs := [], files := [] }

/-! ### C1 — second `start_recording` while active -/

/-- Claim C1 counterexample: with a session active (`app0`), a second
`start_recording` does not return an "already recording" error — it
returns `Ok(())`, replaces `current_recording`, and registers the new
directory `recordings/new.cap` as the active session. -/
theorem start_recording_while_active_not_rejected :
    app0.current_recording = some rec0 ∧
    (start_recording env0 app0 fs0).1 = .ok () ∧
    (start_recording env0 app0 fs0).2.1.current_recording ≠ some rec0 ∧
    ((start_recording env0 app0 fs0).2.1.current_recording.map
      (fun r => r.recording_dir)) = some (video_dir_of "new") := by
  refine ⟨rfl, rfl, by decide, rfl⟩

/-- Claim C1 (amended): a second `start_recording` while a session is
active is not rejected: it returns `Ok(())` and replaces
`current_recording` with the freshly started session for
`recordings/{id}.cap`; the original session is dropped from the active
slot. -/
theorem start_recording_replaces_active (env : Env) (a : App) (fs : FS)
    (r0 : InProgressRecording) (_h : a.current_recording = some r0) :
    (start_recording env a fs).1 = .ok () ∧
    (start_recording env a fs).2.1.current_recording =
      some (recording_start env (video_dir_of env.id)
        a.start_recording_options fs).1 := by
  exact ⟨rfl, rfl⟩

/-- Witness for C1's amended theorem at the concrete active state `app0`. -/
theorem start_recording_replaces_active_witness :
    app0.current_recording = some rec0 ∧
    ((start_recording env0 app0 fs0).1 = .ok () ∧
     (start_recording env0 app0 fs0).2.1.current_recording =
       some (recording_start env0 (video_dir_of env0.id)
         app0.start_recording_options fs0).1) :=
  ⟨rfl, start_recording_replaces_active env0 app0 fs0 rec0 rfl⟩

/-! ### C5 — `stop_recording` with no active session -/

/-- Claim C5: with no active recording, `stop_recording` returns the
`"Recording not in progress"` error and leaves both the app state and the
filesystem unchanged. -/
theorem stop_recording_not_in_progress (a : App) (fs : FS)
    (h : a.current_recording = none) :
    stop_recording a fs = (.error "Recording not in progress", a, fs) := by
  cases a with
  | mk o c p => cases h; rfl

/-- Witness for C5 at the concrete idle state `appIdle`. -/
theorem stop_recording_not_in_progress_witness :
    appIdle.current_recording = none ∧
    stop_recording appIdle fs0 = (.error "Recording not in progress", appIdle, fs0) :=
  ⟨rfl, stop_recording_not_in_progress appIdle fs0 rfl⟩

/-! ### C6 — pipeline failure during start -/

/-- Claim C6 counterexample: when the capture pipelines fail to become
ready (`envFail`), `start_recording` still returns `Ok(())` — not the
originating error — and the partial session directory is registered as the
active session. -/
theorem start_recording_pipeline_failure_not_reported :
    envFail.pipeline_fails = true ∧
    (start_recording envFail appIdle fs0).1 = .ok () ∧
    ((start_recording envFail appIdle fs0).2.1.current_recording.map
      (fun r => r.recording_dir)) = some (video_dir_of "new") ∧
    (start_recording envFail appIdle fs0).2.2.fileExists
      (video_dir_of "new" ++ ["content", "display.mp4"]) = false := by
  refine ⟨rfl, rfl, rfl, rfl⟩

/-- Claim C6 (amended): `start_recording`'s interface carries no error from
`recording::start`, so when a pipeline fails to become ready the call
still returns `Ok(())`, registers the new session as `current_recording`,
and writes no container file (the partial directory stays registered as
active). -/
theorem start_recording_pipeline_failure_registers_partial (env : Env)
    (a : App) (fs : FS) (h : env.pipeline_fails = true) :
    (start_recording env a fs).1 = .ok () ∧
    (start_recording env a fs).2.1.current_recording =
      some (recording_start env (video_dir_of env.id)
        a.start_recording_options fs).1 ∧
    (start_recording env a fs).2.2.files = fs.files := by
  refine ⟨rfl, rfl, ?_⟩
  simp [start_recording, recording_start, FS.mkdir, h]

/-- Witness for C6's amended theorem at the concrete failing environment. -/
theorem start_recording_pipeline_failure_registers_partial_witness :
    envFail.pipeline_fails = true ∧
    ((start_recording envFail appIdle fs0).1 = .ok () ∧
     (start_recording envFail appIdle fs0).2.1.current_recording =
       some (recording_start envFail (video_dir_of envFail.id)
         appIdle.start_recording_options fs0).1 ∧
     (start_recording envFail appIdle fs0).2.2.files = fs0.files) :=
  ⟨rfl, start_recording_pipeline_failure_registers_partial envFail appIdle fs0 rfl⟩

/-! ### C8 — archive append on stop; archive never shrinks -/

/-- Claim C8: a successful `stop_recording` on an active session appends
that session's directory to `prev_recordings` and clears the active slot;
and no core operation ever removes an archive entry — each operation's
resulting `prev_recordings` is the previous list with zero or more
entries appended. -/
theorem stop_recording_archives_and_archive_monotone (a : App) (fs : FS)
    (cur : InProgressRecording) (h : a.current_recording = some cur) :
    ((stop_recording a fs).1 = .ok () ∧
     (stop_recording a fs).2.1.prev_recordings =
       a.prev_recordings ++ [cur.recording_dir] ∧
     (stop_recording a fs).2.1.current_recording = none) ∧
    (∀ b : App, ∀ env : Env, ∀ fs1 fs2 : FS, ∀ o : RecordingOptions,
      (∃ l, (start_recording env b fs1).2.1.prev_recordings =
        b.prev_recordings ++ l) ∧
      (∃ l, (stop_recording b fs2).2.1.prev_recordings =
        b.prev_recordings ++ l) ∧
      (set_recording_options b o).2.prev_recordings = b.prev_recordings ∧
      (get_recording_options b).2.prev_recordings = b.prev_recordings ∧
      (get_prev_recordings b).2.prev_recordings = b.prev_recordings ∧
      (get_current_recording b).2.prev_recordings = b.prev_recordings) := by
  constructor
  · cases a with
    | mk o c p => cases h; exact ⟨rfl, rfl, rfl⟩
  · intro b env fs1 fs2 o
    refine ⟨⟨[], by simp [start_recording, App.set_current_recording]⟩, ?_, rfl, rfl, rfl, rfl⟩
    cases hb : b.current_recording with
    | none =>
      refine ⟨[], ?_⟩
      cases b with
      | mk o c p => cases hb; simp [stop_recording, App.clear_current_recording]
    | some c =>
      refine ⟨[c.recording_dir], ?_⟩
      cases b with
      | mk o cc p => cases hb; simp [stop_recording, App.clear_current_recording]

/-- Witness for C8 at the concrete active state `app0`. -/
theorem stop_recording_archives_and_archive_monotone_witness :
    app0.current_recording = some rec0 ∧
    (((stop_recording app0 fs0).1 = .ok () ∧
      (stop_recording app0 fs0).2.1.prev_recordings =
        app0.prev_recordings ++ [rec0.recording_dir] ∧
      (stop_recording app0 fs0).2.1.current_recording = none) ∧
     (∀ b : App, ∀ env : Env, ∀ fs1 fs2 : FS, ∀ o : RecordingOptions,
       (∃ l, (start_recording env b fs1).2.1.prev_recordings =
         b.prev_recordings ++ l) ∧
       (∃ l, (stop_recording b fs2).2.1.prev_recordings =
         b.prev_recordings ++ l) ∧
       (set_recording_options b o).2.prev_recordings = b.prev_recordings ∧
       (get_recording_options b).2.prev_recordings = b.prev_recordings ∧
       (get_prev_recordings b).2.prev_recordings = b.prev_recordings ∧
       (get_current_recording b).2.prev_recordings = b.prev_recordings)) :=
  ⟨rfl, stop_recording_archives_and_archive_monotone app0 fs0 rec0 rfl⟩

/-! ### C10 — recording-options round trip -/

/-- Claim C10: `set_recording_options` replaces the stored options
wholesale and returns `Ok`, after which `get_recording_options` returns
exactly the options that were set, never fails, and does not modify the
state. -/
theorem recording_options_round_trip (a : App) (o : RecordingOptions) :
    (set_recording_options a o).1 = .ok () ∧
    ((set_recording_options a o).2).start_recording_options = o ∧
    (get_recording_options ((set_recording_options a o).2)).1 = .ok o ∧
    (get_recording_options ((set_recording_options a o).2)).2 =
      (set_recording_options a o).2 :=
  ⟨rfl, rfl, rfl, rfl⟩

/-! ### C2 — missing/malformed `recording-meta.json` -/

/-- The session directory `recordings/v.cap` exists but holds no files at
all (in particular no `recording-meta.json`). -/
def fsMetaMissing : FS := { dirs := [video_dir_of "v"], files := [] }

/-- The session directory `recordings/w.cap` exists and its
`recording-meta.json` is malformed JSON. -/
def fsMetaMalformed : FS :=
  { dirs := [video_dir_of "w"]
    files := [(video_dir_of "w" ++ ["recording-meta.json"], .metaText .malformed)] }

/-- Claim C2 counterexample: on a session directory whose
`recording-meta.json` is missing, `get_rendered_video` panics (the
`read_to_string(..).unwrap()`) instead of returning a `RenderFailure`
error value. -/
theorem get_rendered_video_panics_on_missing_meta :
    fsMetaMissing.dirExists (video_dir_of "v") = true ∧
    (get_rendered_video fsMetaMissing "v" proj0).1 = .panicked := by
  exact ⟨rfl, rfl⟩

/-- Claim C2 (amended): on a session directory that exists, with no cached
output, whose `recording-meta.json` is missing or does not parse,
`get_rendered_video` panics (the two `.unwrap()`s) rather than returning
an error value; the filesystem is unchanged, so no `output/result.mp4` is
created. -/
theorem get_rendered_video_unwrap_panics (fs : FS) (video_id : String)
    (project : ProjectConfiguration)
    (hdir : fs.dirExists (video_dir_of video_id) = true)
    (hout : fs.fileExists (video_dir_of video_id ++ ["output", "result.mp4"]) = false)
    (hmeta : (fs.read (video_dir_of video_id ++ ["recording-meta.json"])).bind
      (fun d => parse_recording_meta d) = none) :
    get_rendered_video fs video_id project = (.panicked, fs, none) := by
  unfold get_rendered_video
  simp only [hdir, hout, if_true, Bool.false_eq_true, if_false]
  cases hr : fs.read (video_dir_of video_id ++ ["recording-meta.json"]) with
  | none => simp
  | some d =>
    rw [hr] at hmeta
    simp at hmeta
    simp [hmeta]

/-- Witness for C2's amended theorem at the malformed-meta fixture. -/
theorem get_rendered_video_unwrap_panics_witness :
    (fsMetaMalformed.dirExists (video_dir_of "w") = true ∧
     fsMetaMalformed.fileExists (video_dir_of "w" ++ ["output", "result.mp4"]) = false ∧
     (fsMetaMalformed.read (video_dir_of "w" ++ ["recording-meta.json"])).bind
       (fun d => parse_recording_meta d) = none) ∧
    get_rendered_video fsMetaMalformed "w" proj0 = (.panicked, fsMetaMalformed, none) :=
  ⟨⟨rfl, rfl, rfl⟩,
    get_rendered_video_unwrap_panics fsMetaMalformed "w" proj0 rfl rfl rfl⟩

/-! ### C3 — rendered output dimensions -/

/-- Metadata with display 1920×1080 and camera 640×480. -/
def meta1920 : RecordingMeta := { display := ⟨1920, 1080⟩, camera := some ⟨640, 480⟩ }

/-- A finalized session `recordings/v3.cap` with `meta1920`, both container
files present, and no cached output. -/
def fsC3 : FS :=
  { dirs := [video_dir_of "v3"]
    files :=
      [ (video_dir_of "v3" ++ ["recording-meta.json"], .metaText (.wellFormed meta1920))
      , (video_dir_of "v3" ++ ["content", "display.mp4"], .video 1920 1080)
      , (video_dir_of "v3" ++ ["content", "camera.mp4"], .video 640 480) ] }

/-- Claim C3 counterexample: with display `{1920,1080}`, camera `{640,480}`
and `project.output_size = (1280,720)`, the render succeeds but the output
file has dimensions `(1920,1080)` — the display dimensions — not
`(1280,720)`. -/
theorem rendered_output_ignores_project_output_size :
    proj0.output_size = (1280, 720) ∧
    (get_rendered_video fsC3 "v3" proj0).1 =
      .ok (video_dir_of "v3" ++ ["output", "result.mp4"]) ∧
    (get_rendered_video fsC3 "v3" proj0).2.1.read
      (video_dir_of "v3" ++ ["output", "result.mp4"]) = some (.video 1920 1080) ∧
    ((1920 : Nat), (1080 : Nat)) ≠ ((1280 : Nat), (720 : Nat)) := by
  refine ⟨rfl, rfl, by decide, by decide⟩

/-- Claim C3 (amended): for every successful render, the output's
dimensions equal the display dimensions recorded in
`recording-meta.json` (the `output_size` that `get_rendered_video` passes
to the renderer), regardless of `project_configuration.output_size`; in
the instance of the claim the output is `(1920, 1080)`, not `(1280, 720)`. -/
theorem rendered_output_size_is_display_size (fs : FS) (video_id : String)
    (project : ProjectConfiguration) (m : RecordingMeta) (w h : Nat)
    (hdir : fs.dirExists (video_dir_of video_id) = true)
    (hout : fs.fileExists (video_dir_of video_id ++ ["output", "result.mp4"]) = false)
    (hmeta : fs.read (video_dir_of video_id ++ ["recording-meta.json"]) =
      some (.metaText (.wellFormed m)))
    (hdisp : fs.read (video_dir_of video_id ++ ["content", "display.mp4"]) =
      some (.video w h)) :
    (get_rendered_video fs video_id project).1 =
      .ok (video_dir_of video_id ++ ["output", "result.mp4"]) ∧
    (get_rendered_video fs video_id project).2.1.read
      (video_dir_of video_id ++ ["output", "result.mp4"]) =
      some (.video m.display.width m.display.height) := by
  unfold get_rendered_video render_video
  simp only [hdir, hout, hmeta, hdisp, parse_recording_meta, if_true,
    Bool.false_eq_true, if_false]
  exact ⟨trivial, FS.read_write_self fs _ _⟩

/-- Witness for C3's amended theorem at the concrete session `fsC3`. -/
theorem rendered_output_size_is_display_size_witness :
    (fsC3.dirExists (video_dir_of "v3") = true ∧
     fsC3.fileExists (video_dir_of "v3" ++ ["output", "result.mp4"]) = false ∧
     fsC3.read (video_dir_of "v3" ++ ["recording-meta.json"]) =
       some (.metaText (.wellFormed meta1920)) ∧
     fsC3.read (video_dir_of "v3" ++ ["content", "display.mp4"]) =
       some (.video 1920 1080)) ∧
    ((get_rendered_video fsC3 "v3" proj0).1 =
      .ok (video_dir_of "v3" ++ ["output", "result.mp4"]) ∧
     (get_rendered_video fsC3 "v3" proj0).2.1.read
       (video_dir_of "v3" ++ ["output", "result.mp4"]) =
       some (.video meta1920.display.width meta1920.display.height)) :=
  ⟨⟨rfl, rfl, by decide, by decide⟩,
    rendered_output_size_is_display_size fsC3 "v3" proj0 meta1920 1920 1080
      rfl rfl (by decide) (by decide)⟩

/-! ### C4 — render idempotence / cache -/

/-- A session `recordings/v4.cap` whose `output/result.mp4` is already
cached. -/
def fsC4 : FS :=
  { dirs := [video_dir_of "v4"]
    files := [(video_dir_of "v4" ++ ["output", "result.mp4"], .video 1280 720)] }

/-- Claim C4: if `output/result.mp4` already exists, `get_rendered_video`
returns that path immediately without invoking the renderer; and whenever
a call succeeds, an immediately repeated call with identical arguments
returns the same path, changes nothing, and does not invoke the renderer
(so the encoder runs at most once across the two calls). -/
theorem render_idempotent (fs : FS) (video_id : String)
    (project : ProjectConfiguration) :
    (fs.dirExists (video_dir_of video_id) = true →
      fs.fileExists (video_dir_of video_id ++ ["output", "result.mp4"]) = true →
      get_rendered_video fs video_id project =
        (.ok (video_dir_of video_id ++ ["output", "result.mp4"]), fs, none)) ∧
    (∀ (p : FsPath) (fs1 : FS) (inv1 : Option RenderOptions),
      get_rendered_video fs video_id project = (.ok p, fs1, inv1) →
      get_rendered_video fs1 video_id project = (.ok p, fs1, none)) := by
  constructor
  · intro hd ho
    simp [get_rendered_video, hd, ho]
  · intro p fs1 inv1 hcall
    by_cases hd : fs.dirExists (video_dir_of video_id) = true
    · by_cases ho : fs.fileExists (video_dir_of video_id ++ ["output", "result.mp4"]) = true
      · simp only [get_rendered_video, hd, ho, if_true] at hcall
        obtain ⟨h1, h23⟩ := Prod.mk.injEq .. ▸ hcall
        obtain ⟨h2, h3⟩ := Prod.mk.injEq .. ▸ h23
        obtain rfl : p = video_dir_of video_id ++ ["output", "result.mp4"] :=
          (Outcome.ok.inj h1).symm
        subst h2
        simp [get_rendered_video, hd, ho]
      · rw [Bool.not_eq_true] at ho
        simp only [get_rendered_video, hd, ho, if_true, Bool.false_eq_true, if_false] at hcall
        cases hr : fs.read (video_dir_of video_id ++ ["recording-meta.json"]) with
        | none => rw [hr] at hcall; simp at hcall
        | some d =>
          rw [hr] at hcall
          cases hp2 : parse_recording_meta d with
          | none => simp [hp2] at hcall
          | some meta =>
            cases hscr : fs.read (video_dir_of video_id ++ ["content", "display.mp4"]) with
            | none => simp [hp2, render_video, hscr] at hcall
            | some fd =>
              cases fd with
              | video w h =>
                simp only [hp2, render_video, hscr] at hcall
                obtain ⟨h1, h23⟩ := Prod.mk.injEq .. ▸ hcall
                obtain ⟨h2, h3⟩ := Prod.mk.injEq .. ▸ h23
                obtain rfl : p = video_dir_of video_id ++ ["output", "result.mp4"] :=
                  (Outcome.ok.inj h1).symm
                subst h2
                simp [get_rendered_video, FS.dirExists_write, hd, FS.fileExists_write_self]
              | empty => simp [hp2, render_video, hscr] at hcall
              | thumbnail src => simp [hp2, render_video, hscr] at hcall
              | metaText t => simp [hp2, render_video, hscr] at hcall
    · rw [Bool.not_eq_true] at hd
      simp [get_rendered_video, hd] at hcall

/-- Witness for C4 at the concrete cached session `fsC4`: both the cache
hit and the repeated-call clause are exercised. -/
theorem render_idempotent_witness :
    (fsC4.dirExists (video_dir_of "v4") = true ∧
     fsC4.fileExists (video_dir_of "v4" ++ ["output", "result.mp4"]) = true ∧
     get_rendered_video fsC4 "v4" proj0 =
       (.ok (video_dir_of "v4" ++ ["output", "result.mp4"]), fsC4, none)) ∧
    (get_rendered_video fsC4 "v4" proj0 =
       (.ok (video_dir_of "v4" ++ ["output", "result.mp4"]), fsC4, none) →
     get_rendered_video fsC4 "v4" proj0 =
       (.ok (video_dir_of "v4" ++ ["output", "result.mp4"]), fsC4, none)) :=
  ⟨⟨rfl, rfl, (render_idempotent fsC4 "v4" proj0).1 rfl rfl⟩,
   (render_idempotent fsC4 "v4" proj0).2
     (video_dir_of "v4" ++ ["output", "result.mp4"]) fsC4 none⟩

/-! ### C9 — render with the camera field absent -/

/-- Metadata for a display-only session (no camera entry). -/
def metaNoCam : RecordingMeta := { display := ⟨1920, 1080⟩, camera := none }

/-- A finalized display-only session `recordings/v9.cap`: well-formed meta
without a camera entry, a display container, no camera container, no
cached output. -/
def fsC9 : FS :=
  { dirs := [video_dir_of "v9"]
    files :=
      [ (video_dir_of "v9" ++ ["recording-meta.json"], .metaText (.wellFormed metaNoCam))
      , (video_dir_of "v9" ++ ["content", "display.mp4"], .video 1920 1080) ] }

/-- Claim C9: when the session directory exists, the output is not cached,
and the metadata parses with the camera field absent, the renderer is
still invoked, with `webcam_size = (0, 0)`,
`webcam_recording_path = content/camera.mp4` (a file that does not
exist), and `output_size` equal to the display dimensions from the
metadata. -/
theorem renderer_invoked_camera_absent (fs : FS) (video_id : String)
    (project : ProjectConfiguration) (m : RecordingMeta)
    (hdir : fs.dirExists (video_dir_of video_id) = true)
    (hout : fs.fileExists (video_dir_of video_id ++ ["output", "result.mp4"]) = false)
    (hmeta : fs.read (video_dir_of video_id ++ ["recording-meta.json"]) =
      some (.metaText (.wellFormed m)))
    (hcam : m.camera = none)
    (hnofile : fs.fileExists (video_dir_of video_id ++ ["content", "camera.mp4"]) = false) :
    ∃ ro : RenderOptions,
      (get_rendered_video fs video_id project).2.2 = some ro ∧
      ro.webcam_size = (0, 0) ∧
      ro.webcam_recording_path = video_dir_of video_id ++ ["content", "camera.mp4"] ∧
      fs.fileExists ro.webcam_recording_path = false ∧
      ro.output_size = (m.display.width, m.display.height) := by
  unfold get_rendered_video
  simp only [hdir, hout, hmeta, parse_recording_meta, hcam, if_true,
    Bool.false_eq_true, if_false]
  cases hscr : fs.read (video_dir_of video_id ++ ["content", "display.mp4"]) with
  | none =>
    simp only [render_video, hscr]
    exact ⟨_, rfl, rfl, rfl, hnofile, rfl⟩
  | some fd =>
    cases fd with
    | video w h =>
      simp only [render_video, hscr]
      exact ⟨_, rfl, rfl, rfl, hnofile, rfl⟩
    | empty =>
      simp only [render_video, hscr]
      exact ⟨_, rfl, rfl, rfl, hnofile, rfl⟩
    | thumbnail src =>
      simp only [render_video, hscr]
      exact ⟨_, rfl, rfl, rfl, hnofile, rfl⟩
    | metaText t =>
      simp only [render_video, hscr]
      exact ⟨_, rfl, rfl, rfl, hnofile, rfl⟩

/-- Witness for C9 at the concrete display-only session `fsC9`. -/
theorem renderer_invoked_camera_absent_witness :
    (fsC9.dirExists (video_dir_of "v9") = true ∧
     fsC9.fileExists (video_dir_of "v9" ++ ["output", "result.mp4"]) = false ∧
     fsC9.read (video_dir_of "v9" ++ ["recording-meta.json"]) =
       some (.metaText (.wellFormed metaNoCam)) ∧
     metaNoCam.camera = none ∧
     fsC9.fileExists (video_dir_of "v9" ++ ["content", "camera.mp4"]) = false) ∧
    (∃ ro : RenderOptions,
      (get_rendered_video fsC9 "v9" proj0).2.2 = some ro ∧
      ro.webcam_size = (0, 0) ∧
      ro.webcam_recording_path = video_dir_of "v9" ++ ["content", "camera.mp4"] ∧
      fsC9.fileExists ro.webcam_recording_path = false ∧
      ro.output_size = (metaNoCam.display.width, metaNoCam.display.height)) :=
  ⟨⟨rfl, rfl, by decide, rfl, rfl⟩,
    renderer_invoked_camera_absent fsC9 "v9" proj0 metaNoCam
      rfl rfl (by decide) rfl rfl⟩

/-! ### C7 — start then stop yields the session artifacts -/

/-- Claim C7: with the capture pipelines coming up normally, for any stored
`RecordingOptions`, `start_recording` followed by `stop_recording`
succeeds and yields the session directory `recordings/{id}.cap`
containing `content/display.mp4`, a `recording-meta.json` written from
the pipelines' negotiated dimensions, and a non-empty thumbnail at
`screenshots/display.jpg` that is a single still frame extracted from the
first frame of the display output. -/
theorem start_stop_yields_session_artifacts (env : Env) (a : App) (fs : FS)
    (h : env.pipeline_fails = false) :
    (stop_recording (start_recording env a fs).2.1 (start_recording env a fs).2.2).1 = .ok () ∧
    (stop_recording (start_recording env a fs).2.1 (start_recording env a fs).2.2).2.2.fileExists
      (video_dir_of env.id ++ ["content", "display.mp4"]) = true ∧
    (stop_recording (start_recording env a fs).2.1 (start_recording env a fs).2.2).2.2.read
      (video_dir_of env.id ++ ["recording-meta.json"]) =
      some (.metaText (.wellFormed
        { display := env.display_dims
          camera := if a.start_recording_options.camera_label.isSome then
            some env.camera_dims else none })) ∧
    (stop_recording (start_recording env a fs).2.1 (start_recording env a fs).2.2).2.2.read
      (video_dir_of env.id ++ ["screenshots", "display.jpg"]) =
      some (.thumbnail (video_dir_of env.id ++ ["content", "display.mp4"])) ∧
    (FileData.thumbnail (video_dir_of env.id ++ ["content", "display.mp4"])).nonEmpty = true := by
  cases hc : a.start_recording_options.camera_label with
  | none =>
    simp [stop_recording, start_recording, recording_start, InProgressRecording.stop,
      ffmpeg_first_frame, App.set_current_recording, App.clear_current_recording,
      FS.read_write_self, FS.read_write_other, FS.fileExists_write_self,
      FS.fileExists_write_other, FS.fileExists_mkdir, FS.read_mkdir,
      h, hc, video_dir_of, recordings_root, FileData.nonEmpty]
  | some lbl =>
    simp [stop_recording, start_recording, recording_start, InProgressRecording.stop,
      ffmpeg_first_frame, App.set_current_recording, App.clear_current_recording,
      FS.read_write_self, FS.read_write_other, FS.fileExists_write_self,
      FS.fileExists_write_other, FS.fileExists_mkdir, FS.read_mkdir,
      h, hc, video_dir_of, recordings_root, FileData.nonEmpty]

/-- Witness for C7 at the concrete environment `env0` and idle state
`appIdle`. -/
theorem start_stop_yields_session_artifacts_witness :
    env0.pipeline_fails = false ∧
    ((stop_recording (start_recording env0 appIdle fs0).2.1 (start_recording env0 appIdle fs0).2.2).1 = .ok () ∧
     (stop_recording (start_recording env0 appIdle fs0).2.1 (start_recording env0 appIdle fs0).2.2).2.2.fileExists
       (video_dir_of env0.id ++ ["content", "display.mp4"]) = true ∧
     (stop_recording (start_recording env0 appIdle fs0).2.1 (start_recording env0 appIdle fs0).2.2).2.2.read
       (video_dir_of env0.id ++ ["recording-meta.json"]) =
       some (.metaText (.wellFormed
         { display := env0.display_dims
           camera := if appIdle.start_recording_options.camera_label.isSome then
             some env0.camera_dims else none })) ∧
     (stop_recording (start_recording env0 appIdle fs0).2.1 (start_recording env0 appIdle fs0).2.2).2.2.read
       (video_dir_of env0.id ++ ["screenshots", "display.jpg"]) =
       some (.thumbnail (video_dir_of env0.id ++ ["content", "display.mp4"])) ∧
     (FileData.thumbnail (video_dir_of env0.id ++ ["content", "display.mp4"])).nonEmpty = true) :=
  ⟨rfl, start_stop_yields_session_artifacts env0 appIdle fs0 rfl⟩
